import Mathlib

/-!
Verification of the cetra schema-validation and data-modeling layer
(`src/cetra/models.py`, `src/cetra/parser.py`).

The embedding models:
  * parsed YAML documents as an inductive tree `Yaml` (mappings keep insertion
    order as association lists, as Python dicts do; YAML `null` and the Python
    `None` produced by `yaml.safe_load` on an empty document are both `Yaml.null`;
    YAML numbers are embedded as exact rationals `Rat`, which faithfully covers
    every numeric literal the documents and claims use);
  * pydantic model construction (`Model(**data)`) as validator functions
    `Except (List FieldError) α`: pydantic collects every violation in one pass,
    tagging each with a location tuple, which is mirrored by the applicative
    error-accumulating combinator `vmap2`;
  * the file system visible to `WorkflowParser.load_workflow` as a map from
    path strings to `FsEntry`, whose constructors are exactly the observable
    outcomes of `Path.exists` / `Path.is_file` / `open` / `yaml.safe_load`
    in the source: absent path, directory, permission denial, other I/O error,
    YAML syntax error, or a successfully parsed document.

Workflow-side entities (`AgentConfig`, `WorkflowStep`, `WorkflowConfig`) and the
flow loader (`FlowParser.load_flow`, with its error classes) are referenced by
`src/cetra/parser.py`, `src/cetra/__init__.py` and the tests but their
definitions are not present under `src/`; they are modelled from the spec where
noted below.
-/

/-- A parsed YAML value, as returned by `yaml.safe_load`. `null` is Python
`None` (explicit `null`, or the result of parsing an empty document). -/
inductive Yaml where
  | null : Yaml
  | bool (b : Bool) : Yaml
  | num (q : Rat) : Yaml
  | str (s : String) : Yaml
  | seq (items : List Yaml) : Yaml
  | map (entries : List (String × Yaml)) : Yaml

/-- The Python type name of a value, as `type(x).__name__` renders it. -/
def Yaml.pyTypeName : Yaml → String
  | .null => "NoneType"
  | .bool _ => "bool"
  | .num _ => "float"
  | .str _ => "str"
  | .seq _ => "list"
  | .map _ => "dict"

/-- `true` exactly on `Yaml.map` values (Python `isinstance(x, dict)`). -/
def Yaml.isMap : Yaml → Bool
  | .map _ => true
  | _ => false

/-- `true` exactly on `Yaml.null` (Python `x is None`). -/
def Yaml.isNull : Yaml → Bool
  | .null => true
  | _ => false

/-- One pydantic validation violation: the location tuple `error['loc']` and the
message `error['msg']`. -/
structure FieldError where
  loc : List String
  msg : String
deriving Repr, DecidableEq

/-- Prefix every violation's location with the path components `ks`, as pydantic
does when reporting a nested model's violations under its container's field. -/
def eUnder {α : Type} (ks : List String) :
    Except (List FieldError) α → Except (List FieldError) α
  | .ok a => .ok a
  | .error es => .error (es.map fun e => ⟨ks ++ e.loc, e.msg⟩)

/-- Combine two field validations, accumulating violations from both sides, as
pydantic validates every field before raising a single `ValidationError`. -/
def vmap2 {α β γ : Type} (f : α → β → γ) :
    Except (List FieldError) α → Except (List FieldError) β →
    Except (List FieldError) γ
  | .ok a, .ok b => .ok (f a b)
  | .ok _, .error es => .error es
  | .error es, .ok _ => .error es
  | .error es, .error es2 => .error (es ++ es2)

/-- A required text field (`f : str = Field(...)`): absent input is
"Field required", a non-string value is a type violation. -/
def vStr (entries : List (String × Yaml)) (k : String) :
    Except (List FieldError) String :=
  match entries.lookup k with
  | none => .error [⟨[k], "Field required"⟩]
  | some (.str s) => .ok s
  | some _ => .error [⟨[k], "Input should be a valid string"⟩]

/-- An optional text field (`f : Optional[str] = Field(None, ...)`). -/
def vOptStr (entries : List (String × Yaml)) (k : String) :
    Except (List FieldError) (Option String) :=
  match entries.lookup k with
  | none => .ok none
  | some .null => .ok none
  | some (.str s) => .ok (some s)
  | some _ => .error [⟨[k], "Input should be a valid string"⟩]

/-- A boolean field with a default (`f : bool = Field(d, ...)`): an absent key
yields the default. -/
def vBoolDefault (entries : List (String × Yaml)) (k : String) (d : Bool) :
    Except (List FieldError) Bool :=
  match entries.lookup k with
  | none => .ok d
  | some (.bool b) => .ok b
  | some _ => .error [⟨[k], "Input should be a valid boolean"⟩]

/-- `ToolParameter` (src/cetra/models.py lines 12-16): `type` and `description`
required text, `required` boolean defaulting to `False`. -/
structure ToolParameter where
  type : String
  description : String
  required : Bool
deriving Repr, DecidableEq

/-- Construction of a `ToolParameter` from a raw value (`ToolParameter(**v)`
inside the nested validation pydantic performs). -/
def ToolParameter.validate (y : Yaml) : Except (List FieldError) ToolParameter :=
  match y with
  | .map entries =>
      vmap2 (fun td r => ⟨td.1, td.2, r⟩)
        (vmap2 Prod.mk (vStr entries "type") (vStr entries "description"))
        (vBoolDefault entries "required" false)
  | _ => .error [⟨[], "Input should be a valid dictionary"⟩]

/-- `ToolOutput` (models.py lines 19-22): `type` and `description` required. -/
structure ToolOutput where
  type : String
  description : String
deriving Repr, DecidableEq

/-- Construction of a `ToolOutput` from a raw value. -/
def ToolOutput.validate (y : Yaml) : Except (List FieldError) ToolOutput :=
  match y with
  | .map entries =>
      vmap2 ToolOutput.mk (vStr entries "type") (vStr entries "description")
  | _ => .error [⟨[], "Input should be a valid dictionary"⟩]

/-- Validate the entries of a `Dict[str, M]` field named `k`: each value is
validated by `sub`, violations located under `k.<entryName>`. -/
def vEntries {α : Type} (sub : Yaml → Except (List FieldError) α) (k : String) :
    List (String × Yaml) → Except (List FieldError) (List (String × α))
  | [] => .ok []
  | (name, v) :: rest =>
      vmap2 (fun a as => (name, a) :: as)
        (eUnder [k, name] (sub v))
        (vEntries sub k rest)

/-- A required `Dict[str, M]` field. -/
def vDictOf {α : Type} (sub : Yaml → Except (List FieldError) α)
    (entries : List (String × Yaml)) (k : String) :
    Except (List FieldError) (List (String × α)) :=
  match entries.lookup k with
  | none => .error [⟨[k], "Field required"⟩]
  | some (.map es) => vEntries sub k es
  | some _ => .error [⟨[k], "Input should be a valid dictionary"⟩]

/-- An optional `Optional[Dict[str, M]]` field defaulting to `None`. -/
def vOptDictOf {α : Type} (sub : Yaml → Except (List FieldError) α)
    (entries : List (String × Yaml)) (k : String) :
    Except (List FieldError) (Option (List (String × α))) :=
  match entries.lookup k with
  | none => .ok none
  | some .null => .ok none
  | some (.map es) => (vEntries sub k es).map some
  | some _ => .error [⟨[k], "Input should be a valid dictionary"⟩]

/-- `ToolCall` (models.py lines 25-30): `name`, `description`, `parameters`
required; `output` optional, defaulting to `None`. -/
structure ToolCall where
  name : String
  description : String
  parameters : List (String × ToolParameter)
  output : Option (List (String × ToolOutput))
deriving Repr, DecidableEq

/-- Construction of a `ToolCall` from a raw value. -/
def ToolCall.validate (y : Yaml) : Except (List FieldError) ToolCall :=
  match y with
  | .map entries =>
      vmap2 (fun nd po => ⟨nd.1, nd.2, po.1, po.2⟩)
        (vmap2 Prod.mk (vStr entries "name") (vStr entries "description"))
        (vmap2 Prod.mk
          (vDictOf ToolParameter.validate entries "parameters")
          (vOptDictOf ToolOutput.validate entries "output"))
  | _ => .error [⟨[], "Input should be a valid dictionary"⟩]

/-- `FlowAction` (models.py lines 33-36): `condition` required,
`next_step` optional. -/
structure FlowAction where
  condition : String
  next_step : Option String
deriving Repr, DecidableEq

/-- Construction of a `FlowAction` from a raw value. -/
def FlowAction.validate (y : Yaml) : Except (List FieldError) FlowAction :=
  match y with
  | .map entries =>
      vmap2 FlowAction.mk (vStr entries "condition") (vOptStr entries "next_step")
  | _ => .error [⟨[], "Input should be a valid dictionary"⟩]

/-- Validate the items of a `List[M]` field named `k`: item `i`'s violations are
located under `k.<i>`. -/
def vItems {α : Type} (sub : Yaml → Except (List FieldError) α) (k : String) :
    List Yaml → Nat → Except (List FieldError) (List α)
  | [], _ => .ok []
  | v :: rest, i =>
      vmap2 (· :: ·) (eUnder [k, toString i] (sub v)) (vItems sub k rest (i + 1))

/-- An optional nested-model field (`f : Optional[M] = Field(None, ...)`). -/
def vOptNested {α : Type} (sub : Yaml → Except (List FieldError) α)
    (entries : List (String × Yaml)) (k : String) :
    Except (List FieldError) (Option α) :=
  match entries.lookup k with
  | none => .ok none
  | some .null => .ok none
  | some v => (eUnder [k] (sub v)).map some

/-- An optional `Optional[List[M]]` field defaulting to `None`. -/
def vOptListOf {α : Type} (sub : Yaml → Except (List FieldError) α)
    (entries : List (String × Yaml)) (k : String) :
    Except (List FieldError) (Option (List α)) :=
  match entries.lookup k with
  | none => .ok none
  | some .null => .ok none
  | some (.seq vs) => (vItems sub k vs 0).map some
  | some _ => .error [⟨[k], "Input should be a valid list"⟩]

/-- `FlowStep` (models.py lines 39-50): `id` required text; `prompt`,
`tool_call`, `response`, `actions`, `next_step` all optional with `None`
defaults. -/
structure FlowStep where
  id : String
  prompt : Option String
  tool_call : Option ToolCall
  response : Option String
  actions : Option (List FlowAction)
  next_step : Option String
deriving Repr, DecidableEq

/-- Construction of a `FlowStep` from a raw value. -/
def FlowStep.validate (y : Yaml) : Except (List FieldError) FlowStep :=
  match y with
  | .map entries =>
      vmap2 (fun ipt ran => ⟨ipt.1, ipt.2.1, ipt.2.2, ran.1, ran.2.1, ran.2.2⟩)
        (vmap2 Prod.mk (vStr entries "id")
          (vmap2 Prod.mk (vOptStr entries "prompt")
            (vOptNested ToolCall.validate entries "tool_call")))
        (vmap2 Prod.mk (vOptStr entries "response")
          (vmap2 Prod.mk (vOptListOf FlowAction.validate entries "actions")
            (vOptStr entries "next_step")))
  | _ => .error [⟨[], "Input should be a valid dictionary"⟩]

/-- `FlowConfig` (models.py lines 53-59): a single required field `flow`, a list
of `FlowStep`. -/
structure FlowConfig where
  flow : List FlowStep
deriving Repr, DecidableEq

/-- Construction `FlowConfig(flow=v)` from the raw section value `v`: pydantic
requires a list and validates each item as a `FlowStep`, locating item `i`'s
violations under `flow.<i>`. -/
def FlowConfig.build (v : Yaml) : Except (List FieldError) FlowConfig :=
  match v with
  | .seq vs => (vItems FlowStep.validate "flow" vs 0).map FlowConfig.mk
  | _ => .error [⟨["flow"], "Input should be a valid list"⟩]

/-- A required non-empty text field. Modelled from the spec: the workflow-side
entities' text fields are documented as "non-empty text" and their definitions
are not under `src/`, so the non-emptiness constraint follows the spec's words
(pydantic `min_length=1` phrasing for the violation message). -/
def vStrNonEmpty (entries : List (String × Yaml)) (k : String) :
    Except (List FieldError) String :=
  match entries.lookup k with
  | none => .error [⟨[k], "Field required"⟩]
  | some (.str s) =>
      if s = "" then .error [⟨[k], "String should have at least 1 character"⟩]
      else .ok s
  | some _ => .error [⟨[k], "Input should be a valid string"⟩]

/-- Modelled from the spec: `AgentConfig` (referenced by
`src/cetra/agent_factory.py` but absent from `src/cetra/models.py`):
`instructions` (non-empty text), `temperature` (number, 0.0-2.0 inclusive,
default 0.7). Numbers are embedded as exact rationals. -/
structure AgentConfig where
  instructions : String
  temperature : Rat
deriving Repr, DecidableEq

/-- Modelled from the spec: the `temperature` field's validation — absent means
the default 0.7, a number outside [0, 2] is a violation citing the bound
violated. -/
def vTemperature (entries : List (String × Yaml)) :
    Except (List FieldError) Rat :=
  match entries.lookup "temperature" with
  | none => .ok (mkRat 7 10)
  | some (.num q) =>
      if q < 0 then
        .error [⟨["temperature"], "Input should be greater than or equal to 0"⟩]
      else if 2 < q then
        .error [⟨["temperature"], "Input should be less than or equal to 2"⟩]
      else .ok q
  | some _ => .error [⟨["temperature"], "Input should be a valid number"⟩]

/-- Modelled from the spec: construction of an `AgentConfig` from a raw value. -/
def AgentConfig.validate (y : Yaml) : Except (List FieldError) AgentConfig :=
  match y with
  | .map entries =>
      vmap2 AgentConfig.mk (vStrNonEmpty entries "instructions")
        (vTemperature entries)
  | _ => .error [⟨[], "Input should be a valid dictionary"⟩]

/-- Modelled from the spec: `WorkflowStep` (absent from `src/cetra/models.py`):
`name`, `agent`, `ask`, all required non-empty text. -/
structure WorkflowStep where
  name : String
  agent : String
  ask : String
deriving Repr, DecidableEq

/-- Modelled from the spec: construction of a `WorkflowStep` from a raw value. -/
def WorkflowStep.validate (y : Yaml) : Except (List FieldError) WorkflowStep :=
  match y with
  | .map entries =>
      vmap2 (fun na a => ⟨na.1, na.2, a⟩)
        (vmap2 Prod.mk (vStrNonEmpty entries "name")
          (vStrNonEmpty entries "agent"))
        (vStrNonEmpty entries "ask")
  | _ => .error [⟨[], "Input should be a valid dictionary"⟩]

/-- A required `List[M]` field. -/
def vListOf {α : Type} (sub : Yaml → Except (List FieldError) α)
    (entries : List (String × Yaml)) (k : String) :
    Except (List FieldError) (List α) :=
  match entries.lookup k with
  | none => .error [⟨[k], "Field required"⟩]
  | some (.seq vs) => vItems sub k vs 0
  | some _ => .error [⟨[k], "Input should be a valid list"⟩]

/-- Modelled from the spec: `WorkflowConfig` (imported by `src/cetra/parser.py`
but absent from `src/cetra/models.py`): `name` (non-empty text), `description`
(optional text), `agents` (mapping agent name → `AgentConfig`), `steps`
(ordered sequence of `WorkflowStep`). -/
structure WorkflowConfig where
  name : String
  description : Option String
  agents : List (String × AgentConfig)
  steps : List WorkflowStep
deriving Repr, DecidableEq

/-- Modelled from the spec: construction `WorkflowConfig(**entries)` from the
keyword arguments obtained by unpacking the workflow section's mapping. -/
def WorkflowConfig.validate (entries : List (String × Yaml)) :
    Except (List FieldError) WorkflowConfig :=
  vmap2 (fun nd as => ⟨nd.1, nd.2, as.1, as.2⟩)
    (vmap2 Prod.mk (vStrNonEmpty entries "name") (vOptStr entries "description"))
    (vmap2 Prod.mk (vDictOf AgentConfig.validate entries "agents")
      (vListOf WorkflowStep.validate entries "steps"))

/-- The parser-level error classes of `src/cetra/parser.py` lines 16-28:
`WorkflowFileError` and `WorkflowValidationError`, both subclasses of the root
`WorkflowParserError` (embedded as the two constructors of one type, each
carrying the exception message). -/
inductive WorkflowParserError where
  | fileError (msg : String) : WorkflowParserError
  | validationError (msg : String) : WorkflowParserError
deriving Repr, DecidableEq

/-- The Python class name of a raised parser error. -/
def WorkflowParserError.className : WorkflowParserError → String
  | .fileError _ => "WorkflowFileError"
  | .validationError _ => "WorkflowValidationError"

/-- The message carried by a raised parser error (`str(e)`). -/
def WorkflowParserError.message : WorkflowParserError → String
  | .fileError m => m
  | .validationError m => m

/-- What `yaml.safe_load` does on a file's bytes: raises a `yaml.YAMLError`
with a diagnostic, or returns a parsed value (`Yaml.null` for an empty
document). -/
inductive ParseOutcome where
  | yamlError (diag : String) : ParseOutcome
  | parsed (v : Yaml) : ParseOutcome

/-- The state of a path as `load_workflow` observes it through `Path.exists`,
`Path.is_file`, `open` and `yaml.safe_load`: the path is absent, a directory,
a file whose `open` raises `PermissionError`, a file whose read raises some
other `OSError` (its message), or a readable file with a parse outcome. -/
inductive FsEntry where
  | absent : FsEntry
  | directory : FsEntry
  | unreadable : FsEntry
  | readFailure (msg : String) : FsEntry
  | yamlFile (r : ParseOutcome) : FsEntry

/-- Python's `'\n'.join(lines)`. -/
def pyJoinLines : List String → String
  | [] => ""
  | [x] => x
  | x :: y :: rest => x ++ "\n" ++ pyJoinLines (y :: rest)

/-- One detail line of the validation-failure message: the error's `loc` tuple
joined with dots, a colon, and its message (`parser.py` lines 91-95). -/
def errorDetail (e : FieldError) : String :=
  String.intercalate "." e.loc ++ ": " ++ e.msg

/-- The message of the `WorkflowValidationError` raised when pydantic reports
violations `es` for the file at `filepath` (`parser.py` lines 97-100). -/
def validationFailedMsg (filepath : String) (es : List FieldError) : String :=
  "Workflow validation failed in " ++ filepath ++ ":\n" ++
    pyJoinLines (es.map fun e => "  - " ++ errorDetail e)

/-- `WorkflowConfig(**workflow_data)` guarded by `parser.py` lines 86-102: a
mapping is unpacked and validated (a `ValidationError` becomes a
`WorkflowValidationError` enumerating every violation); any other value makes
the `**` unpacking raise a `TypeError`, caught by the final handler and
re-raised as a `WorkflowValidationError`. -/
def constructWorkflowConfig (filepath : String) (wdata : Yaml) :
    Except WorkflowParserError WorkflowConfig :=
  match wdata with
  | .map entries =>
      match WorkflowConfig.validate entries with
      | .ok cfg => .ok cfg
      | .error es => .error (.validationError (validationFailedMsg filepath es))
  | other =>
      .error (.validationError ("Error validating workflow in " ++ filepath ++
        ": argument after ** must be a mapping, not " ++ other.pyTypeName))

/-- `WorkflowParser.load_workflow` (`parser.py` lines 38-102). The file-system
checks and the read/parse happen through `fs`; the `None` test on
`yaml_data.get('workflow')` is `(entries.lookup "workflow").getD .null`
matched against `.null`, since Python's `dict.get` returns `None` both for an
absent key and for a present key mapped to `None`. -/
def WorkflowParser.load_workflow (fs : String → FsEntry) (filepath : String) :
    Except WorkflowParserError WorkflowConfig :=
  match fs filepath with
  | .absent => .error (.fileError ("Workflow file not found: " ++ filepath))
  | .directory => .error (.fileError ("Path is not a file: " ++ filepath))
  | .unreadable =>
      .error (.fileError ("Permission denied reading file: " ++ filepath))
  | .readFailure m =>
      .error (.fileError ("Error reading workflow file " ++ filepath ++ ": " ++ m))
  | .yamlFile (.yamlError d) =>
      .error (.validationError ("Invalid YAML format in " ++ filepath ++ ": " ++ d))
  | .yamlFile (.parsed yamlData) =>
      match yamlData with
      | .null => .error (.validationError ("Workflow file is empty: " ++ filepath))
      | .map entries =>
          match (entries.lookup "workflow").getD .null with
          | .null =>
              .error (.validationError
                ("Workflow file must contain a 'workflow' section: " ++ filepath))
          | wdata => constructWorkflowConfig filepath wdata
      | other =>
          .error (.validationError ("Workflow file must contain a YAML object, got "
            ++ other.pyTypeName ++ ": " ++ filepath))

/-- Modelled from the spec: the flow-side error classes `FlowFileError` and
`FlowValidationError` deriving `FlowParserError` (exported by
`src/cetra/__init__.py` and used by the tests, but absent from
`src/cetra/parser.py`). -/
inductive FlowParserError where
  | fileError (msg : String) : FlowParserError
  | validationError (msg : String) : FlowParserError
deriving Repr, DecidableEq

/-- The Python class name of a raised flow-parser error. -/
def FlowParserError.className : FlowParserError → String
  | .fileError _ => "FlowFileError"
  | .validationError _ => "FlowValidationError"

/-- The message of the `FlowValidationError` raised when pydantic reports
violations `es` for the flow file at `filepath` (mirror of
`validationFailedMsg`). -/
def flowValidationFailedMsg (filepath : String) (es : List FieldError) : String :=
  "Flow validation failed in " ++ filepath ++ ":\n" ++
    pyJoinLines (es.map fun e => "  - " ++ errorDetail e)

/-- Modelled from the spec: `FlowParser.load_flow` (exported by
`src/cetra/__init__.py` and exercised by `src/tests/test_parser.py`, but absent
from `src/cetra/parser.py`). Per the spec it mirrors the workflow loader with
section key `flow`, whose value is passed directly as the `flow` field of
`FlowConfig` (`FlowConfig(flow=section)`); its missing-file message contains
"not found" (spec property P3). -/
def FlowParser.load_flow (fs : String → FsEntry) (filepath : String) :
    Except FlowParserError FlowConfig :=
  match fs filepath with
  | .absent => .error (.fileError ("Flow file not found: " ++ filepath))
  | .directory => .error (.fileError ("Path is not a file: " ++ filepath))
  | .unreadable =>
      .error (.fileError ("Permission denied reading file: " ++ filepath))
  | .readFailure m =>
      .error (.fileError ("Error reading flow file " ++ filepath ++ ": " ++ m))
  | .yamlFile (.yamlError d) =>
      .error (.validationError ("Invalid YAML format in " ++ filepath ++ ": " ++ d))
  | .yamlFile (.parsed yamlData) =>
      match yamlData with
      | .null => .error (.validationError ("Flow file is empty: " ++ filepath))
      | .map entries =>
          match (entries.lookup "flow").getD .null with
          | .null =>
              .error (.validationError
                ("Flow file must contain a 'flow' section: " ++ filepath))
          | fdata =>
              match FlowConfig.build fdata with
              | .ok cfg => .ok cfg
              | .error es =>
                  .error (.validationError (flowValidationFailedMsg filepath es))
      | other =>
          .error (.validationError ("Flow file must contain a YAML object, got "
            ++ other.pyTypeName ++ ": " ++ filepath))

/-- pydantic's `frozen` model option for the entities of `src/cetra/models.py`:
none of the model classes declares a `model_config`/`Config`, so the pydantic
default `frozen=False` applies to all of them (attribute assignment on a
constructed instance is permitted and mutates it). -/
def pydanticFrozen : Bool := false

/-- The Python statement `step.id = v` on a constructed `FlowStep`: with
`frozen=True` pydantic would raise; with the models' actual (default)
configuration it succeeds, and the object the caller holds thereafter has the
new field value. The returned record is the caller-visible state of the mutated
object. -/
def FlowStep.setId (s : FlowStep) (v : String) : Except String FlowStep :=
  if pydanticFrozen then .error "Instance is frozen" else .ok { s with id := v }

/-- The Python statement `p.required = v` on a constructed `ToolParameter`. -/
def ToolParameter.setRequired (p : ToolParameter) (v : Bool) :
    Except String ToolParameter :=
  if pydanticFrozen then .error "Instance is frozen"
  else .ok { p with required := v }

/-- The demo workflow document of the spec's end-to-end scenario (0.5 is the
exact rational `mkRat 1 2`). -/
def demoWorkflowDoc : Yaml :=
  .map [("workflow", .map [
    ("name", .str "demo"),
    ("agents", .map [("greeter", .map [
      ("instructions", .str "Be nice."),
      ("temperature", .num (mkRat 1 2))])]),
    ("steps", .seq [.map [
      ("name", .str "welcome"),
      ("agent", .str "greeter"),
      ("ask", .str "Say hi to {name}")]])])]

/-- A file system whose every path holds the demo workflow document. -/
def demoFs : String → FsEntry := fun _ => .yamlFile (.parsed demoWorkflowDoc)

/-- The `WorkflowConfig` the demo document loads to. -/
def demoConfig : WorkflowConfig :=
  ⟨"demo", none, [("greeter", ⟨"Be nice.", mkRat 1 2⟩)],
    [⟨"welcome", "greeter", "Say hi to {name}"⟩]⟩

/-- C1: loading the demo workflow document (workflow named `demo`, one agent
`greeter` with instructions "Be nice." and temperature 0.5, one step
`{name: welcome, agent: greeter, ask: "Say hi to {name}"}`) returns a
`WorkflowConfig` whose `name` is "demo", whose `agents` mapping at `greeter`
has temperature 0.5 (= 1/2), and whose first step's `ask` is
"Say hi to {name}". -/
theorem load_workflow_demo_document :
    ∃ cfg, WorkflowParser.load_workflow demoFs "demo.yaml" = .ok cfg ∧
      cfg.name = "demo" ∧
      (cfg.agents.lookup "greeter").map AgentConfig.temperature =
        some (mkRat 1 2) ∧
      cfg.steps.head?.map WorkflowStep.ask = some "Say hi to {name}" :=
  ⟨demoConfig, rfl, rfl, rfl, rfl⟩

/-- C4 counterexample: the entity constructors of `src/cetra/models.py` declare
no non-emptiness constraints, so construction with an empty string for
`FlowStep.id`, `ToolCall.name`, `FlowAction.condition` or `ToolParameter.type`
succeeds, and a `FlowConfig` with an empty step sequence is accepted — the
claim's "is rejected" is false at these inputs. -/
theorem empty_values_accepted_at_construction :
    FlowStep.validate (.map [("id", .str "")]) =
      .ok ⟨"", none, none, none, none, none⟩ ∧
    ToolCall.validate (.map [("name", .str ""), ("description", .str ""),
        ("parameters", .map [])]) = .ok ⟨"", "", [], none⟩ ∧
    FlowAction.validate (.map [("condition", .str "")]) = .ok ⟨"", none⟩ ∧
    ToolParameter.validate (.map [("type", .str ""), ("description", .str "")]) =
      .ok ⟨"", "", false⟩ ∧
    FlowConfig.build (.seq []) = .ok ⟨[]⟩ :=
  ⟨rfl, rfl, rfl, rfl, rfl⟩

/-- C4 amended: construction of the flow-side entities fails on a missing
required field or a wrong-typed value, but enforces no non-emptiness: every
string (the empty one included) is accepted for `FlowStep.id` and
`FlowAction.condition`, and `FlowConfig` accepts an empty step sequence. -/
theorem construction_rejects_missing_not_empty :
    FlowStep.validate (.map []) = .error [⟨["id"], "Field required"⟩] ∧
    FlowConfig.build .null = .error [⟨["flow"], "Input should be a valid list"⟩] ∧
    (∀ s : String, FlowStep.validate (.map [("id", .str s)]) =
      .ok ⟨s, none, none, none, none, none⟩) ∧
    (∀ c : String, FlowAction.validate (.map [("condition", .str c)]) =
      .ok ⟨c, none⟩) ∧
    FlowConfig.build (.seq []) = .ok ⟨[]⟩ :=
  ⟨rfl, rfl, fun _ => rfl, fun _ => rfl, rfl⟩

/-- C9: optional fields absent from the input become their documented defaults
and no defaults are invented for required fields: a `ToolParameter` built
without the `required` key has `required = false`, a `ToolCall` built without
the `output` key has `output = none`, and a `ToolParameter` missing its
required `type` and `description` keys fails with a "Field required" violation
for each rather than being given invented values. -/
theorem optional_fields_default_required_not_invented :
    (∀ t d : String, ToolParameter.validate
        (.map [("type", .str t), ("description", .str d)]) = .ok ⟨t, d, false⟩) ∧
    (∀ n d : String, ToolCall.validate (.map [("name", .str n),
        ("description", .str d), ("parameters", .map [])]) =
      .ok ⟨n, d, [], none⟩) ∧
    ToolParameter.validate (.map []) =
      .error [⟨["type"], "Field required"⟩, ⟨["description"], "Field required"⟩] :=
  ⟨fun _ _ => rfl, fun _ _ => rfl, rfl⟩

/-- C10: a top-level mapping whose `workflow` key holds an explicit YAML null
is treated exactly like one with no `workflow` key at all: `dict.get` returns
Python `None` in both cases, the `is None` guard fires, and `load_workflow`
raises the same missing-section error without ever reaching schema
validation. -/
theorem null_workflow_section_treated_as_absent :
    ∀ (fs fs2 : String → FsEntry) (p : String)
      (doc doc2 : List (String × Yaml)),
      fs p = .yamlFile (.parsed (.map doc)) →
      fs2 p = .yamlFile (.parsed (.map doc2)) →
      doc.lookup "workflow" = some .null →
      doc2.lookup "workflow" = none →
      WorkflowParser.load_workflow fs p =
        .error (.validationError
          ("Workflow file must contain a 'workflow' section: " ++ p)) ∧
      WorkflowParser.load_workflow fs p = WorkflowParser.load_workflow fs2 p := by
  intro fs fs2 p doc doc2 h1 h2 h3 h4
  constructor
  · simp [WorkflowParser.load_workflow, h1, h3]
  · simp [WorkflowParser.load_workflow, h1, h2, h3, h4]

/-- C10 witness: the theorem applied to a document with `workflow: null` and a
document with only `other_key: x`. -/
theorem null_workflow_section_treated_as_absent_witness :
    WorkflowParser.load_workflow
        (fun _ => .yamlFile (.parsed (.map [("workflow", .null)]))) "w.yaml" =
      .error (.validationError
        "Workflow file must contain a 'workflow' section: w.yaml") ∧
    WorkflowParser.load_workflow
        (fun _ => .yamlFile (.parsed (.map [("workflow", .null)]))) "w.yaml" =
      WorkflowParser.load_workflow
        (fun _ => .yamlFile (.parsed (.map [("other_key", .str "x")]))) "w.yaml" :=
  null_workflow_section_treated_as_absent
    (fun _ => .yamlFile (.parsed (.map [("workflow", .null)])))
    (fun _ => .yamlFile (.parsed (.map [("other_key", .str "x")])))
    "w.yaml" [("workflow", .null)] [("other_key", .str "x")] rfl rfl rfl rfl

/-- C7 counterexample: the pydantic models of `src/cetra/models.py` set no
`frozen` configuration, so attribute assignment on a constructed entity
neither fails nor leaves the value unchanged: assigning `id = "changed"` on a
constructed `FlowStep` succeeds and the caller-visible value differs from the
original. -/
theorem assignment_after_construction_mutates :
    FlowStep.setId ⟨"start", none, none, none, none, none⟩ "changed" =
      .ok ⟨"changed", none, none, none, none, none⟩ ∧
    (⟨"changed", none, none, none, none, none⟩ : FlowStep) ≠
      ⟨"start", none, none, none, none, none⟩ :=
  ⟨rfl, by decide⟩

/-- C7 amended: the entities are ordinary (non-frozen) pydantic models — each
is created once during a load call, but post-construction assignment is
permitted: it succeeds and replaces the field's value in the object the caller
holds (so the entities are not immutable). -/
theorem entities_not_frozen :
    pydanticFrozen = false ∧
    (∀ (s : FlowStep) (v : String),
      FlowStep.setId s v = .ok { s with id := v } ∧
      (v ≠ s.id → { s with id := v } ≠ s)) ∧
    (∀ (tp : ToolParameter) (b : Bool),
      ToolParameter.setRequired tp b = .ok { tp with required := b }) := by
  refine ⟨rfl, fun s v => ⟨rfl, fun hv he => hv ?_⟩, fun tp b => rfl⟩
  exact congrArg FlowStep.id he

/-- C7 amended witness: the amended theorem applied to a concrete step and a
new `id` value differing from the old one. -/
theorem entities_not_frozen_witness :
    FlowStep.setId ⟨"start", none, none, none, none, none⟩ "changed" =
      .ok ⟨"changed", none, none, none, none, none⟩ ∧
    (⟨"changed", none, none, none, none, none⟩ : FlowStep) ≠
      ⟨"start", none, none, none, none, none⟩ ∧
    ToolParameter.setRequired ⟨"string", "d", false⟩ true =
      .ok ⟨"string", "d", true⟩ :=
  ⟨(entities_not_frozen.2.1 ⟨"start", none, none, none, none, none⟩ "changed").1,
    (entities_not_frozen.2.1 ⟨"start", none, none, none, none, none⟩ "changed").2
      (by decide),
    entities_not_frozen.2.2 ⟨"string", "d", false⟩ true⟩

/-- Two strings with prefixes of different lengths before the same suffix are
different. -/
lemma append_left_length_ne {a b : String} (p : String)
    (h : a.length ≠ b.length) : a ++ p ≠ b ++ p := by
  intro he
  apply h
  have hl := congrArg String.length he
  rw [String.length_append, String.length_append] at hl
  omega

/-- C8: when the path does not identify an existing readable regular file, both
loaders raise their file-error kind before any parsing is attempted (the
outcome in these cases never consults a parse result): non-existence, a
directory, and permission denial each produce a file error naming the path,
the three messages are pairwise distinct, and the missing-file message
contains "not found". -/
theorem file_access_failures_raise_file_error :
    ∀ (fs : String → FsEntry) (p : String),
      (fs p = .absent →
        WorkflowParser.load_workflow fs p =
          .error (.fileError ("Workflow file not found: " ++ p)) ∧
        FlowParser.load_flow fs p =
          .error (.fileError ("Flow file not found: " ++ p)) ∧
        (∃ a b, "Workflow file not found: " ++ p = a ++ "not found" ++ b) ∧
        (∃ a b, "Flow file not found: " ++ p = a ++ "not found" ++ b)) ∧
      (fs p = .directory →
        WorkflowParser.load_workflow fs p =
          .error (.fileError ("Path is not a file: " ++ p)) ∧
        FlowParser.load_flow fs p =
          .error (.fileError ("Path is not a file: " ++ p))) ∧
      (fs p = .unreadable →
        WorkflowParser.load_workflow fs p =
          .error (.fileError ("Permission denied reading file: " ++ p)) ∧
        FlowParser.load_flow fs p =
          .error (.fileError ("Permission denied reading file: " ++ p))) ∧
      ("Workflow file not found: " ++ p ≠ "Path is not a file: " ++ p) ∧
      ("Workflow file not found: " ++ p ≠
        "Permission denied reading file: " ++ p) ∧
      ("Path is not a file: " ++ p ≠ "Permission denied reading file: " ++ p) := by
  intro fs p
  refine ⟨fun h => ⟨?_, ?_, ?_, ?_⟩, fun h => ⟨?_, ?_⟩, fun h => ⟨?_, ?_⟩,
    append_left_length_ne p (by decide), append_left_length_ne p (by decide),
    append_left_length_ne p (by decide)⟩
  · simp [WorkflowParser.load_workflow, h]
  · simp [FlowParser.load_flow, h]
  · exact ⟨"Workflow file ", ": " ++ p, by rw [← String.append_assoc]; rfl⟩
  · exact ⟨"Flow file ", ": " ++ p, by rw [← String.append_assoc]; rfl⟩
  · simp [WorkflowParser.load_workflow, h]
  · simp [FlowParser.load_flow, h]
  · simp [WorkflowParser.load_workflow, h]
  · simp [FlowParser.load_flow, h]

/-- C8 witness: the theorem applied to a file system where the path (the
test-suite's `nonexistent_flow.yaml`) is absent. -/
theorem file_access_failures_raise_file_error_witness :
    FlowParser.load_flow (fun _ => FsEntry.absent) "nonexistent_flow.yaml" =
      .error (.fileError "Flow file not found: nonexistent_flow.yaml") ∧
    (∃ a b, "Workflow file not found: " ++ "nonexistent_flow.yaml" =
      a ++ "not found" ++ b) :=
  ⟨((file_access_failures_raise_file_error (fun _ => FsEntry.absent)
      "nonexistent_flow.yaml").1 rfl).2.1,
    ((file_access_failures_raise_file_error (fun _ => FsEntry.absent)
      "nonexistent_flow.yaml").1 rfl).2.2.1⟩

/-- C3 counterexample: `src/cetra/parser.py` declares only two error
subclasses, so a structural defect (here: a document whose top-level mapping
lacks the `workflow` key) and a semantic schema failure (here: a `workflow`
section missing every required field) are raised as instances of the very same
class `WorkflowValidationError` — the claimed structural error kind distinct
from the semantic-validation kind does not exist in the code. -/
theorem structural_and_semantic_share_error_class :
    WorkflowParser.load_workflow
        (fun _ => .yamlFile (.parsed (.map [("other_key", .str "x")]))) "w.yaml" =
      .error (.validationError
        "Workflow file must contain a 'workflow' section: w.yaml") ∧
    WorkflowParser.load_workflow
        (fun _ => .yamlFile (.parsed (.map [("workflow", .map [])]))) "w.yaml" =
      .error (.validationError
        "Workflow validation failed in w.yaml:\n  - name: Field required\n  - agents: Field required\n  - steps: Field required") ∧
    WorkflowParserError.className (.validationError
        "Workflow file must contain a 'workflow' section: w.yaml") =
      WorkflowParserError.className (.validationError
        "Workflow validation failed in w.yaml:\n  - name: Field required\n  - agents: Field required\n  - steps: Field required") :=
  ⟨rfl, rfl, rfl⟩

/-- C3 amended: every structural defect — YAML syntax error, empty document,
non-mapping top level, absent (or null) `workflow` section key — makes
`load_workflow` raise a `WorkflowValidationError`, a class distinct from
`WorkflowFileError`; both derive from the single root `WorkflowParserError`
(the two constructors of one error type here). The code does not distinguish
structural from semantic failures by class: both are
`WorkflowValidationError`. -/
theorem structural_defects_raise_validation_error :
    ∀ (fs : String → FsEntry) (p : String),
      (∀ d, fs p = .yamlFile (.yamlError d) →
        WorkflowParser.load_workflow fs p =
          .error (.validationError
            ("Invalid YAML format in " ++ p ++ ": " ++ d))) ∧
      (fs p = .yamlFile (.parsed .null) →
        WorkflowParser.load_workflow fs p =
          .error (.validationError ("Workflow file is empty: " ++ p))) ∧
      (∀ v, fs p = .yamlFile (.parsed v) → v.isNull = false → v.isMap = false →
        WorkflowParser.load_workflow fs p =
          .error (.validationError
            ("Workflow file must contain a YAML object, got " ++ v.pyTypeName
              ++ ": " ++ p))) ∧
      (∀ doc, fs p = .yamlFile (.parsed (.map doc)) →
        (doc.lookup "workflow").getD .null = .null →
        WorkflowParser.load_workflow fs p =
          .error (.validationError
            ("Workflow file must contain a 'workflow' section: " ++ p))) ∧
      (∀ m m2, WorkflowParserError.className (.validationError m) ≠
        WorkflowParserError.className (.fileError m2)) := by
  intro fs p
  refine ⟨fun d h => ?_, fun h => ?_, fun v h hn hm => ?_, fun doc h hw => ?_,
    fun m m2 => by simp [WorkflowParserError.className]⟩
  · simp [WorkflowParser.load_workflow, h]
  · simp [WorkflowParser.load_workflow, h]
  · cases v with
    | null => simp [Yaml.isNull] at hn
    | map _ => simp [Yaml.isMap] at hm
    | bool b => simp [WorkflowParser.load_workflow, h, Yaml.pyTypeName]
    | num q => simp [WorkflowParser.load_workflow, h, Yaml.pyTypeName]
    | str s => simp [WorkflowParser.load_workflow, h, Yaml.pyTypeName]
    | seq l => simp [WorkflowParser.load_workflow, h, Yaml.pyTypeName]
  · simp [WorkflowParser.load_workflow, h, hw]

/-- C3 amended witness: the theorem applied to a file holding only
`other_key: x` (missing `workflow` section) and to concrete messages. -/
theorem structural_defects_raise_validation_error_witness :
    WorkflowParser.load_workflow
        (fun _ => .yamlFile (.parsed (.map [("other_key", .str "x")]))) "w.yaml" =
      .error (.validationError
        "Workflow file must contain a 'workflow' section: w.yaml") ∧
    WorkflowParserError.className (.validationError "m") ≠
      WorkflowParserError.className (.fileError "m") :=
  ⟨(structural_defects_raise_validation_error
        (fun _ => .yamlFile (.parsed (.map [("other_key", .str "x")])))
        "w.yaml").2.2.2.1 [("other_key", .str "x")] rfl rfl,
    (structural_defects_raise_validation_error
        (fun _ => .yamlFile (.parsed (.map [("other_key", .str "x")])))
        "w.yaml").2.2.2.2 "m" "m"⟩

/-- C2: one load entry point per document kind — `load_workflow` returning a
`WorkflowConfig` and `load_flow` returning a `FlowConfig` — and on every input
each call either returns a config or raises a parser error (the error type's
two classes cover the spec's three kinds: file access on one side, structural
and semantic validation on the other); moreover any returned config is exactly
the output of a successful entity-model validation of the extracted section,
so only fully validated objects are ever returned. -/
theorem loaders_return_validated_or_raise :
    ∀ (fs : String → FsEntry) (p : String),
      ((∃ cfg, WorkflowParser.load_workflow fs p = .ok cfg) ∨
        (∃ e, WorkflowParser.load_workflow fs p = .error e)) ∧
      ((∃ cfg, FlowParser.load_flow fs p = .ok cfg) ∨
        (∃ e, FlowParser.load_flow fs p = .error e)) ∧
      (∀ cfg, WorkflowParser.load_workflow fs p = .ok cfg →
        ∃ sec, WorkflowConfig.validate sec = .ok cfg) ∧
      (∀ cfg, FlowParser.load_flow fs p = .ok cfg →
        ∃ v, FlowConfig.build v = .ok cfg) := by
  intro fs p
  refine ⟨?_, ?_, ?_, ?_⟩
  · cases h : WorkflowParser.load_workflow fs p with
    | ok c => exact .inl ⟨c, rfl⟩
    | error e => exact .inr ⟨e, rfl⟩
  · cases h : FlowParser.load_flow fs p with
    | ok c => exact .inl ⟨c, rfl⟩
    | error e => exact .inr ⟨e, rfl⟩
  · intro cfg h
    unfold WorkflowParser.load_workflow at h
    split at h <;> try exact absurd h (by simp)
    rename_i yamlData
    split at h <;> try exact absurd h (by simp)
    · rename_i doc
      split at h <;> try exact absurd h (by simp)
      unfold constructWorkflowConfig at h
      split at h
      · split at h
        · rename_i cfg2 heq
          injection h with h2
          subst h2
          exact ⟨_, heq⟩
        · exact absurd h (by simp)
      · exact absurd h (by simp)
  · intro cfg h
    unfold FlowParser.load_flow at h
    split at h <;> try exact absurd h (by simp)
    rename_i yamlData
    split at h <;> try exact absurd h (by simp)
    · rename_i doc
      split at h <;> try exact absurd h (by simp)
      split at h
      · rename_i cfg2 heq
        injection h with h2
        subst h2
        exact ⟨_, heq⟩
      · exact absurd h (by simp)

/-- C2 witness: the theorem applied to the demo document: the returned config
is the output of a successful `WorkflowConfig` validation. -/
theorem loaders_return_validated_or_raise_witness :
    ∃ sec, WorkflowConfig.validate sec = .ok demoConfig :=
  (loaders_return_validated_or_raise demoFs "demo.yaml").2.2.1 demoConfig rfl

/-- C6: every lower-level failure is caught at the loader boundary and
re-raised as a declared error kind: an I/O exception during read becomes a
`WorkflowFileError`, a YAML parse exception becomes a
`WorkflowValidationError`, the `TypeError` from unpacking a non-mapping
section value and a pydantic constraint violation each become a
`WorkflowValidationError`; and on every input the call's outcome is a config,
a `WorkflowFileError` or a `WorkflowValidationError` — never a raw low-level
failure. -/
theorem low_level_failures_become_parser_errors :
    ∀ (fs : String → FsEntry) (p : String),
      (∀ m, fs p = .readFailure m →
        WorkflowParser.load_workflow fs p =
          .error (.fileError
            ("Error reading workflow file " ++ p ++ ": " ++ m))) ∧
      (∀ d, fs p = .yamlFile (.yamlError d) →
        WorkflowParser.load_workflow fs p =
          .error (.validationError
            ("Invalid YAML format in " ++ p ++ ": " ++ d))) ∧
      (∀ doc sec, fs p = .yamlFile (.parsed (.map doc)) →
        (doc.lookup "workflow").getD .null = sec → sec.isNull = false →
        sec.isMap = false →
        WorkflowParser.load_workflow fs p =
          .error (.validationError ("Error validating workflow in " ++ p ++
            ": argument after ** must be a mapping, not " ++ sec.pyTypeName))) ∧
      (∀ doc sec es, fs p = .yamlFile (.parsed (.map doc)) →
        doc.lookup "workflow" = some (.map sec) →
        WorkflowConfig.validate sec = .error es →
        WorkflowParser.load_workflow fs p =
          .error (.validationError (validationFailedMsg p es))) ∧
      ((∃ cfg, WorkflowParser.load_workflow fs p = .ok cfg) ∨
        (∃ m, WorkflowParser.load_workflow fs p = .error (.fileError m)) ∨
        (∃ m, WorkflowParser.load_workflow fs p =
          .error (.validationError m))) := by
  intro fs p
  refine ⟨fun m h => ?_, fun d h => ?_, fun doc sec h hsec hn hm => ?_,
    fun doc sec es h hw hv => ?_, ?_⟩
  · simp [WorkflowParser.load_workflow, h]
  · simp [WorkflowParser.load_workflow, h]
  · subst hsec
    rcases hgd : (doc.lookup "workflow").getD .null with _ | b | q | s | l | m2
    · simp [hgd, Yaml.isNull] at hn
    · simp [WorkflowParser.load_workflow, h, hgd, constructWorkflowConfig,
        Yaml.pyTypeName]
    · simp [WorkflowParser.load_workflow, h, hgd, constructWorkflowConfig,
        Yaml.pyTypeName]
    · simp [WorkflowParser.load_workflow, h, hgd, constructWorkflowConfig,
        Yaml.pyTypeName]
    · simp [WorkflowParser.load_workflow, h, hgd, constructWorkflowConfig,
        Yaml.pyTypeName]
    · simp [hgd, Yaml.isMap] at hm
  · simp [WorkflowParser.load_workflow, h, hw, constructWorkflowConfig, hv]
  · cases hr : WorkflowParser.load_workflow fs p with
    | ok cfg => exact .inl ⟨cfg, rfl⟩
    | error e =>
      cases e with
      | fileError m => exact .inr (.inl ⟨m, rfl⟩)
      | validationError m => exact .inr (.inr ⟨m, rfl⟩)

/-- C6 witness: the theorem applied to a file whose read raises an unexpected
I/O error, and to a document whose `workflow` section is a list (so the `**`
unpacking raises `TypeError`). -/
theorem low_level_failures_become_parser_errors_witness :
    WorkflowParser.load_workflow (fun _ => .readFailure "disk error") "w.yaml" =
      .error (.fileError "Error reading workflow file w.yaml: disk error") ∧
    WorkflowParser.load_workflow
        (fun _ => .yamlFile (.parsed (.map [("workflow", .seq [])]))) "w.yaml" =
      .error (.validationError
        "Error validating workflow in w.yaml: argument after ** must be a mapping, not list") :=
  ⟨(low_level_failures_become_parser_errors
      (fun _ => .readFailure "disk error") "w.yaml").1 "disk error" rfl,
    (low_level_failures_become_parser_errors
      (fun _ => .yamlFile (.parsed (.map [("workflow", .seq [])])))
      "w.yaml").2.2.1 [("workflow", .seq [])] (.seq []) rfl rfl rfl rfl⟩

/-- C5: when the extracted `workflow` section fails entity-model validation
with violations `es`, `load_workflow` raises a single
`WorkflowValidationError` whose message is exactly the newline-join of a
header line naming the source location and one `  - <dotted field path>:
<reason>` line per violation — every violation found in the one pass, one per
line, in order, not only the first. -/
theorem validation_failure_enumerates_all_violations :
    ∀ (fs : String → FsEntry) (p : String) (doc sec : List (String × Yaml))
      (es : List FieldError),
      fs p = .yamlFile (.parsed (.map doc)) →
      doc.lookup "workflow" = some (.map sec) →
      WorkflowConfig.validate sec = .error es →
      es ≠ [] →
      WorkflowParser.load_workflow fs p =
        .error (.validationError
          (pyJoinLines (("Workflow validation failed in " ++ p ++ ":") ::
            es.map fun e => "  - " ++ errorDetail e))) ∧
      ∀ e ∈ es, ("  - " ++ errorDetail e) ∈
        es.map fun e2 => "  - " ++ errorDetail e2 := by
  intro fs p doc sec es h hw hv hne
  constructor
  · have h1 : WorkflowParser.load_workflow fs p =
        .error (.validationError (validationFailedMsg p es)) := by
      simp [WorkflowParser.load_workflow, h, hw, constructWorkflowConfig, hv]
    rw [h1]
    obtain ⟨x, xs, rfl⟩ : ∃ x xs, es = x :: xs := by
      cases es with
      | nil => exact absurd rfl hne
      | cons x xs => exact ⟨x, xs, rfl⟩
    unfold validationFailedMsg
    simp only [List.map_cons]
    rw [show ("Workflow validation failed in " ++ p) ++ ":\n" =
          (("Workflow validation failed in " ++ p) ++ ":") ++ "\n" by
        rw [String.append_assoc ("Workflow validation failed in " ++ p) ":" "\n"]
        rfl]
    rfl
  · intro e he
    exact List.mem_map_of_mem _ he

/-- C5 witness: the theorem applied to a `workflow` section that is an empty
mapping, which violates three required-field constraints at once; the raised
message carries all three, and the second violation's line is among the
enumerated lines. -/
theorem validation_failure_enumerates_all_violations_witness :
    WorkflowParser.load_workflow
        (fun _ => .yamlFile (.parsed (.map [("workflow", .map [])]))) "w.yaml" =
      .error (.validationError
        (pyJoinLines (("Workflow validation failed in " ++ "w.yaml" ++ ":") ::
          ([⟨["name"], "Field required"⟩, ⟨["agents"], "Field required"⟩,
            ⟨["steps"], "Field required"⟩] : List FieldError).map
            fun e => "  - " ++ errorDetail e))) ∧
    ("  - " ++ errorDetail ⟨["agents"], "Field required"⟩) ∈
      ([⟨["name"], "Field required"⟩, ⟨["agents"], "Field required"⟩,
        ⟨["steps"], "Field required"⟩] : List FieldError).map
        fun e2 => "  - " ++ errorDetail e2 :=
  ⟨(validation_failure_enumerates_all_violations
      (fun _ => .yamlFile (.parsed (.map [("workflow", .map [])]))) "w.yaml"
      [("workflow", .map [])] []
      [⟨["name"], "Field required"⟩, ⟨["agents"], "Field required"⟩,
        ⟨["steps"], "Field required"⟩] rfl rfl rfl (by decide)).1,
    (validation_failure_enumerates_all_violations
      (fun _ => .yamlFile (.parsed (.map [("workflow", .map [])]))) "w.yaml"
      [("workflow", .map [])] []
      [⟨["name"], "Field required"⟩, ⟨["agents"], "Field required"⟩,
        ⟨["steps"], "Field required"⟩] rfl rfl rfl (by decide)).2
      ⟨["agents"], "Field required"⟩ (by decide)⟩
